import Mathlib

set_option maxHeartbeats 1000000

/-!
Formal model of the adaptive AI-response cache implemented in
`src/backend/app/services/cache.py` (`class AIResponseCache`).

Modelling conventions:
* Python's `redis` client is modelled as an in-process association list from
  keys to stored entries (serialized value plus the TTL passed at write
  time).  The claims under study never let wall-clock time pass, so TTLs are
  recorded but never decremented.
* A `fail : Bool` parameter on every engine operation models the backing
  store raising an exception: when it is `true`, the first backing-store
  command issued by the operation raises, and control transfers to the
  operation's `except` handler exactly as in the Python `try`/`except`
  blocks.  All in-object mutations performed before the raising command are
  kept, since Python object state is not rolled back.
* `json.dumps`/`json.loads` are Python-stdlib functions external to the
  repository; the engine is therefore parametrised by an encoder
  `enc : A -> Except Unit String` (dumps, which may raise on an
  unserializable value) and a decoder `dec : String -> Option A` (loads,
  `none` modelling a raised decoding error).
* `hashlib.md5(...).hexdigest()[:8]` is a Python-stdlib digest, external to
  the repository; it is modelled by `md5hex8`, a concrete deterministic
  stand-in producing a fixed-width 8-hex-character string.  Only
  determinism and fixed width of the digest are relevant to the claims.
* Python `int(x * 1.5)` / `int(x * 0.5)` on the positive TTL table values
  are exactly `x * 3 / 2` and `x / 2` in truncating natural division.
* Python truthiness tests on `Optional[int]`, `Optional[str]`, `dict` and
  `str` values (`if ttl_override:`, `if identifier:`, `if context:`,
  `if value:`) are modelled explicitly: `None`, `0`, `""` and the empty
  mapping are falsy.
-/

/-- The four cache strategies of `class CacheStrategy` in the source. -/
inductive CacheStrategy where
  | aggressive
  | moderate
  | conservative
  | adaptive
  deriving DecidableEq, Repr

/-- `class CacheMetrics`: process-wide counters.  The `last_reset` wall-clock
field is omitted (external time, unused by any operation modelled here);
`avg_response_time_ms` is kept as a rational, Python's float being a
rounding of the same cumulative-moving-average formula. -/
structure CacheMetrics where
  hits : Nat := 0
  misses : Nat := 0
  evictions : Nat := 0
  avg_response_time_ms : Rat := 0
  cache_size_bytes : Nat := 0
  deriving DecidableEq, Repr

/-- One entry of the modelled redis store: the serialized value written by
`setex`, together with the TTL (in seconds) it was written or last
`expire`-d with. -/
structure StoreEntry where
  value : String
  ttl : Int
  deriving DecidableEq, Repr

/-- The modelled backing key-value store. -/
abbrev Store := List (String × StoreEntry)

/-- A context mapping (`context: Optional[Dict[str, Any]]`), modelled as the
dict's items in insertion order; values are their textual representations
(the spec restricts context values to scalars representable as text). -/
abbrev Ctx := List (String × String)

/-- The mutable state of one `AIResponseCache` object: the backing store it
talks to, plus its `_metrics`, `_warm_cache_keys` and `_access_counts`
attributes and its `default_strategy` configuration. -/
structure CacheState where
  redis : Store
  metrics : CacheMetrics
  warmKeys : List String
  accessCounts : List (String × Nat)
  defaultStrategy : CacheStrategy
  deriving DecidableEq, Repr

/-- A fresh `AIResponseCache()` against an empty store (the constructor's
default strategy is `MODERATE`). -/
def initState : CacheState :=
  { redis := []
    metrics := {}
    warmKeys := []
    accessCounts := []
    defaultStrategy := CacheStrategy.moderate }

/-- Dictionary lookup on an association list (first matching key). -/
def alookup {β : Type} : List (String × β) → String → Option β
  | [], _ => none
  | (k, v) :: rest, key => if k = key then some v else alookup rest key

/-- Dictionary write on an association list: replace the first binding of
the key, or append a fresh binding. -/
def aset {β : Type} : List (String × β) → String → β → List (String × β)
  | [], key, v => [(key, v)]
  | (k, w) :: rest, key, v =>
    if k = key then (key, v) :: rest else (k, w) :: aset rest key v

/-- `dict.pop(key, None)` / redis key deletion: drop every binding of the
key. -/
def aremove {β : Type} (l : List (String × β)) (key : String) :
    List (String × β) :=
  l.filter (fun p => p.1 ≠ key)

/-- `set.add`: insert a key into the warm-key set if not already present. -/
def addKey (l : List String) (key : String) : List String :=
  if key ∈ l then l else key :: l

/-- `self._access_counts[key] = self._access_counts.get(key, 0) + 1`. -/
def bumpCount (l : List (String × Nat)) (key : String) :
    List (String × Nat) :=
  aset l key ((alookup l key).getD 0 + 1)

/-- `redis.delete(*keys)`: remove the given keys from the store, returning
how many of them were actually present. -/
def rDelete : Store → List String → Nat × Store
  | st, [] => (0, st)
  | st, k :: ks =>
    let present : Nat := if (alookup st k).isSome then 1 else 0
    let r := rDelete (aremove st k) ks
    (present + r.1, r.2)

/-- `redis.ttl(key)`: remaining TTL of a key, `-2` when the key is absent
(redis's convention). -/
def rTtl (st : Store) (key : String) : Int :=
  match alookup st key with
  | some e => e.ttl
  | none => -2

/-- `redis.expire(key, ttl)`: reset the TTL of a present key. -/
def rExpire (st : Store) (key : String) (ttl : Int) : Store :=
  match alookup st key with
  | some e => aset st key { e with ttl := ttl }
  | none => st

/-- `redis.scan_iter(prefix + "*")`: the stored keys matching the pattern,
in store order. -/
def rScan (st : Store) (pat : String) : List String :=
  (st.map (·.1)).filter (fun k => pat.isPrefixOf k)

/-- Python truthiness of an `Optional[int]` (`if ttl_override:`). -/
def pyTruthyInt (o : Option Int) : Bool :=
  o.getD 0 ≠ 0

/-- Python truthiness of an `Optional[str]` (`if identifier:`,
`if value:`). -/
def pyTruthyStr (o : Option String) : Bool :=
  o.getD "" ≠ ""

/-- The `KEY_PREFIX = "ai_cache"` class constant (renamed, the source name
being unavailable here). -/
def aiCacheNs : String := "ai_cache"

/-- `":".join(parts)`. -/
def joinColon : List String → String
  | [] => ""
  | [x] => x
  | x :: y :: rest => x ++ ":" ++ joinColon (y :: rest)

/-- The order in which Python's `sorted` arranges the `(key, value)` item
tuples of a context dict: lexicographic on the pair. -/
def pairLe (a b : String × String) : Prop :=
  a.1 < b.1 ∨ (a.1 = b.1 ∧ a.2 ≤ b.2)

instance : DecidableRel pairLe := fun a b => by
  unfold pairLe; exact inferInstance

instance : IsTotal (String × String) pairLe where
  total a b := by
    rcases lt_trichotomy a.1 b.1 with h | h | h
    · exact Or.inl (Or.inl h)
    · rcases le_total a.2 b.2 with h2 | h2
      · exact Or.inl (Or.inr ⟨h, h2⟩)
      · exact Or.inr (Or.inr ⟨h.symm, h2⟩)
    · exact Or.inr (Or.inl h)

instance : IsTrans (String × String) pairLe where
  trans a b c hab hbc := by
    rcases hab with h1 | ⟨e1, l1⟩
    · rcases hbc with h2 | ⟨e2, _⟩
      · exact Or.inl (h1.trans h2)
      · exact Or.inl (e2 ▸ h1)
    · rcases hbc with h2 | ⟨e2, l2⟩
      · exact Or.inl (e1 ▸ h2)
      · exact Or.inr ⟨e1.trans e2, l1.trans l2⟩

instance : IsAntisymm (String × String) pairLe where
  antisymm a b hab hba := by
    rcases hab with h1 | ⟨e1, l1⟩
    · rcases hba with h2 | ⟨e2, _⟩
      · exact absurd h2 (lt_asymm h1)
      · exact absurd (e2 ▸ h1) (lt_irrefl _)
    · rcases hba with h2 | ⟨_, l2⟩
      · exact absurd (e1 ▸ h2) (lt_irrefl _)
      · exact Prod.ext e1 (le_antisymm l1 l2)

/-- `json.dumps` of one `(key, value)` item tuple (rendered as a JSON
array).  String escaping is omitted: only determinism of the rendering is
relevant to the claims. -/
def dumpsPair (p : String × String) : String :=
  "[\"" ++ p.1 ++ "\", \"" ++ p.2 ++ "\"]"

/-- `json.dumps(sorted(context.items()))`, applied to an already-sorted
item list. -/
def dumpsPairs (l : List (String × String)) : String :=
  "[" ++ String.intercalate ", " (l.map dumpsPair) ++ "]"

/-- One hex digit. -/
def hexDigit (n : Nat) : Char :=
  if n < 10 then Char.ofNat (48 + n) else Char.ofNat (87 + n)

/-- Fixed-width 8-hex-digit rendering of a number below `2 ^ 32`. -/
def toHex8 (n : Nat) : String :=
  String.mk ((List.range 8).map (fun i => hexDigit (n / 16 ^ (7 - i) % 16)))

/-- Models `hashlib.md5(s.encode()).hexdigest()[:8]`: MD5 is a
Python-stdlib digest external to this repository, so it is modelled as a
concrete deterministic stand-in with the same shape (a fixed-width
8-hex-character string determined solely by the input).  No claim under
study depends on the digest's internals. -/
def md5hex8 (s : String) : String :=
  toHex8 (s.data.foldl (fun h c => (h * 131 + c.toNat) % 4294967296) 5381)

/-- `AIResponseCache._generate_cache_key`: join prefix, category and
identifier with `":"`, appending an 8-hex-character digest of the
canonically sorted context items when a non-empty context is supplied
(`if context:` — the empty dict is falsy). -/
def generate_cache_key (cache_type identifier : String)
    (context : Option Ctx) : String :=
  let key_parts := [aiCacheNs, cache_type, identifier]
  match context with
  | none => joinColon key_parts
  | some ctx =>
    if ctx.isEmpty then joinColon key_parts
    else
      let context_str := dumpsPairs (List.insertionSort pairLe ctx)
      joinColon (key_parts ++ [md5hex8 context_str])

/-- The `TTL_MAPPING` class constant. -/
def TTL_MAPPING : CacheStrategy → Nat
  | CacheStrategy.aggressive => 3600
  | CacheStrategy.moderate => 900
  | CacheStrategy.conservative => 300
  | CacheStrategy.adaptive => 600

/-- The TTL policy of `AIResponseCache.set` (its `else` branch, source
lines 206–215): the strategy's base TTL, adjusted for the adaptive
strategy by the key's current access count (`int(ttl * 1.5)` above 10
accesses, `int(ttl * 0.5)` below 2). -/
def resolveTTL (strategy : CacheStrategy) (access_count : Nat) : Nat :=
  let ttl := TTL_MAPPING strategy
  if strategy = CacheStrategy.adaptive then
    if access_count > 10 then ttl * 3 / 2
    else if access_count < 2 then ttl / 2
    else ttl
  else ttl

/-- The full TTL determination of `AIResponseCache.set` (source lines
203–215): `if ttl_override:` — a truthy (non-`None`, non-zero) override is
used verbatim, otherwise the policy TTL applies. -/
def determineTTL (strategy : CacheStrategy) (access_count : Nat)
    (ttl_override : Option Int) : Int :=
  if pyTruthyInt ttl_override then ttl_override.getD 0
  else (resolveTTL strategy access_count : Int)

/-- `AIResponseCache.get`.  `fail` set means the `redis.get` command raises
(caught by the `except` clause, which returns `None` with no state
change).  On a truthy reply the hit counter, per-key access counter and
rolling average are updated before `json.loads` runs, so those updates
survive even a decoding failure (which the `except` clause turns into
`None`).  `response_time` is the externally measured wall-clock duration
of the store round trip. -/
def cacheGet {A : Type} (dec : String → Option A) (fail : Bool)
    (s : CacheState) (cache_type identifier : String) (context : Option Ctx)
    (response_time : Rat) : Option A × CacheState :=
  let key := generate_cache_key cache_type identifier context
  if fail then (none, s)
  else
    match (alookup s.redis key).map (·.value) with
    | some str =>
      if str = "" then
        (none, { s with metrics := { s.metrics with misses := s.metrics.misses + 1 } })
      else
        let hits' := s.metrics.hits + 1
        let counts' := bumpCount s.accessCounts key
        let total : Rat := ((hits' + s.metrics.misses : Nat) : Rat)
        let avg' := (s.metrics.avg_response_time_ms * (total - 1) + response_time) / total
        let s' := { s with
          metrics := { s.metrics with hits := hits', avg_response_time_ms := avg' }
          accessCounts := counts' }
        match dec str with
        | some v => (some v, s')
        | none => (none, s')
    | none =>
      (none, { s with metrics := { s.metrics with misses := s.metrics.misses + 1 } })

/-- `AIResponseCache.set`.  The key, effective strategy and TTL are
computed before the `try` block; a `json.dumps` failure or a raising
`setex` is caught and turns into `False` with no state change; on success
the entry is written with the resolved TTL and, for the aggressive
strategy, the key joins the warm-key set. -/
def cacheSet {A : Type} (enc : A → Except Unit String) (fail : Bool)
    (s : CacheState) (cache_type identifier : String) (value : A)
    (context : Option Ctx) (strategy : Option CacheStrategy)
    (ttl_override : Option Int) : Bool × CacheState :=
  let key := generate_cache_key cache_type identifier context
  let strat := strategy.getD s.defaultStrategy
  let ttl := determineTTL strat ((alookup s.accessCounts key).getD 0) ttl_override
  match enc value with
  | Except.error _ => (false, s)
  | Except.ok serialized =>
    if fail then (false, s)
    else
      let redis' := aset s.redis key { value := serialized, ttl := ttl }
      let warm' :=
        if strat = CacheStrategy.aggressive then addKey s.warmKeys key
        else s.warmKeys
      (true, { s with redis := redis', warmKeys := warm' })

/-- `AIResponseCache.invalidate`.  `if identifier:` is Python truthiness
(the empty string selects the whole-category branch).  A raising store
command is caught and turns into `0` with no state change; otherwise the
deleted count is added to the evictions metric and the deleted keys leave
the warm-key set and the access-count table. -/
def cacheInvalidate (fail : Bool) (s : CacheState) (cache_type : String)
    (identifier : Option String) (context : Option Ctx) : Nat × CacheState :=
  if fail then (0, s)
  else if pyTruthyStr identifier then
    let key := generate_cache_key cache_type (identifier.getD "") context
    let r := rDelete s.redis [key]
    let s' := { s with
      redis := r.2
      warmKeys := s.warmKeys.filter (fun k => k ≠ key)
      accessCounts := aremove s.accessCounts key
      metrics := { s.metrics with evictions := s.metrics.evictions + r.1 } }
    (r.1, s')
  else
    let pat := aiCacheNs ++ ":" ++ cache_type ++ ":"
    let keys := rScan s.redis pat
    if keys.isEmpty then
      (0, { s with metrics := { s.metrics with evictions := s.metrics.evictions + 0 } })
    else
      let r := rDelete s.redis keys
      let s' := { s with
        redis := r.2
        warmKeys := s.warmKeys.filter (fun k => ¬ keys.contains k)
        accessCounts := s.accessCounts.filter (fun p => ¬ keys.contains p.1)
        metrics := { s.metrics with evictions := s.metrics.evictions + r.1 } }
      (r.1, s')

/-- One warm-cache entry, modelling the Python dict: a `none` field models
a missing dictionary key, whose access in `warm_cache` raises `KeyError`
(`context` is read with `.get`, so its absence is benign). -/
structure WarmEntry (A : Type) where
  cache_type : Option String
  identifier : Option String
  value : Option A
  context : Option Ctx

/-- `AIResponseCache.warm_cache`: apply `set` to every entry, counting
successes; a per-entry exception (a malformed entry) is caught and the
loop continues.  `set` catches its own store and serialization errors and
returns `False`, so only malformed entries take the exception path. -/
def warmCache {A : Type} (enc : A → Except Unit String) (fail : Bool)
    (s : CacheState) (entries : List (WarmEntry A))
    (strategy : CacheStrategy) : Nat × CacheState :=
  match entries with
  | [] => (0, s)
  | e :: rest =>
    match e.cache_type, e.identifier, e.value with
    | some ct, some ident, some v =>
      let r := cacheSet enc fail s ct ident v e.context (some strategy) none
      let w := warmCache enc fail r.2 rest strategy
      ((if r.1 then 1 else 0) + w.1, w.2)
    | _, _, _ => warmCache enc fail s rest strategy

/-- The optimization report dict built by `optimize_cache`. -/
structure OptimizeReport where
  optimizations : List String
  keys_analyzed : Nat
  keys_evicted : Nat
  error : Option String
  deriving DecidableEq, Repr

/-- The hot-retention loop of `optimize_cache`: for each frequently
accessed key whose remaining TTL is positive and under 1800 seconds,
extend it to 3600 seconds and record a report line. -/
def extendLoop : Store → List String → List String × Store
  | st, [] => ([], st)
  | st, k :: ks =>
    let ttl := rTtl st k
    if 0 < ttl ∧ ttl < 1800 then
      let r := extendLoop (rExpire st k 3600) ks
      (("Extended TTL for frequently accessed key: " ++ k) :: r.1, r.2)
    else extendLoop st ks

/-- `AIResponseCache.optimize_cache`: partition the tracked keys into
rarely (count < 2) and frequently (count > 10) accessed; evict the rare
ones from the store and forget them; extend hot keys' TTLs.  With `fail`
set, the first store command raises and the `except` clause records the
error in the report; the fields assigned before the raise (notably
`keys_analyzed`) are kept.  The metrics object is never touched. -/
def cacheOptimize (fail : Bool) (s : CacheState) :
    OptimizeReport × CacheState :=
  let rarely := (s.accessCounts.filter (fun p => p.2 < 2)).map (·.1)
  let frequently := (s.accessCounts.filter (fun p => p.2 > 10)).map (·.1)
  let analyzed := s.accessCounts.length
  if rarely.isEmpty then
    if fail then
      if frequently.isEmpty then
        ({ optimizations := [], keys_analyzed := analyzed, keys_evicted := 0,
           error := none }, s)
      else
        ({ optimizations := [], keys_analyzed := analyzed, keys_evicted := 0,
           error := some "store error" }, s)
    else
      let r := extendLoop s.redis frequently
      ({ optimizations := r.1, keys_analyzed := analyzed, keys_evicted := 0,
         error := none }, { s with redis := r.2 })
  else if fail then
    ({ optimizations := [], keys_analyzed := analyzed, keys_evicted := 0,
       error := some "store error" }, s)
  else
    let d := rDelete s.redis rarely
    let evictMsg := "Evicted " ++ toString d.1 ++ " rarely accessed keys"
    let counts' := s.accessCounts.filter (fun p => ¬ rarely.contains p.1)
    let warm' := s.warmKeys.filter (fun k => ¬ rarely.contains k)
    let r := extendLoop d.2 frequently
    ({ optimizations := evictMsg :: r.1, keys_analyzed := analyzed,
       keys_evicted := d.1, error := none },
     { s with redis := r.2, warmKeys := warm', accessCounts := counts' })

/-- `AIResponseCache.clear_all`: delete every key under the cache
namespace and reset the tracking tables; a raising store command is caught
and turns into `False` with no state change.  The metrics object is never
touched. -/
def clearAll (fail : Bool) (s : CacheState) : Bool × CacheState :=
  if fail then (false, s)
  else
    let keys := rScan s.redis (aiCacheNs ++ ":")
    let redis' := if keys.isEmpty then s.redis else (rDelete s.redis keys).2
    (true, { s with redis := redis', warmKeys := [], accessCounts := [] })

theorem alookup_aset_self {β : Type} (l : List (String × β)) (key : String)
    (v : β) : alookup (aset l key v) key = some v := by
  induction l with
  | nil => simp [aset, alookup]
  | cons p rest ih =>
    obtain ⟨a, b⟩ := p
    by_cases h : a = key
    · simp [aset, h, alookup]
    · simp [aset, h, alookup, ih]

theorem alookup_aset_ne {β : Type} (l : List (String × β)) (key k : String)
    (v : β) (h : k ≠ key) : alookup (aset l key v) k = alookup l k := by
  induction l with
  | nil => simp [aset, alookup, Ne.symm h]
  | cons p rest ih =>
    obtain ⟨a, b⟩ := p
    by_cases ha : a = key
    · subst ha
      simp [aset, alookup, Ne.symm h]
    · by_cases hk : a = k
      · subst hk
        simp [aset, alookup, ha]
      · simp [aset, alookup, ha, hk, ih]

/-- A concrete JSON codec for booleans, used to instantiate the engine's
codec parameters on concrete inputs: `json.dumps(True) = "true"` and
`json.loads("true") = True`. -/
def encBool : Bool → Except Unit String
  | true => Except.ok "true"
  | false => Except.ok "false"

/-- The matching decoder. -/
def decBool (s : String) : Option Bool :=
  if s = "true" then some true
  else if s = "false" then some false
  else none

/-- Claim C1: a successful `set(c, i, V, context)` followed immediately by
`get(c, i, context)` (no intervening operations, no expiry) returns a
value equal to V and increments the hit counter by exactly 1.  The
hypotheses say that V is JSON-serializable: `json.dumps` succeeds and
`json.loads` inverts it (its output being a non-empty string is true of
every `json.dumps` output). -/
theorem C1_hit_after_set {A : Type} (enc : A → Except Unit String)
    (dec : String → Option A) (s : CacheState)
    (cache_type identifier : String) (context : Option Ctx) (v : A)
    (str : String) (strategy : Option CacheStrategy) (rt : Rat)
    (henc : enc v = Except.ok str) (hdec : dec str = some v)
    (hne : str ≠ "") :
    (cacheSet enc false s cache_type identifier v context strategy none).1 = true ∧
    (cacheGet dec false
        (cacheSet enc false s cache_type identifier v context strategy none).2
        cache_type identifier context rt).1 = some v ∧
    (cacheGet dec false
        (cacheSet enc false s cache_type identifier v context strategy none).2
        cache_type identifier context rt).2.metrics.hits =
      s.metrics.hits + 1 := by
  simp [cacheSet, cacheGet, henc, hdec, hne, alookup_aset_self]

/-- Witness for C1 at a concrete input. -/
theorem C1_witness :
    encBool true = Except.ok "true" ∧ decBool "true" = some true ∧
    "true" ≠ "" ∧
    (cacheGet decBool false
        (cacheSet encBool false initState "suggestion" "db" true none none none).2
        "suggestion" "db" none 0).1 = some true ∧
    (cacheGet decBool false
        (cacheSet encBool false initState "suggestion" "db" true none none none).2
        "suggestion" "db" none 0).2.metrics.hits =
      initState.metrics.hits + 1 := by
  refine ⟨rfl, rfl, by decide, ?_, ?_⟩
  · exact (C1_hit_after_set encBool decBool initState "suggestion" "db" none
      true "true" none 0 rfl rfl (by decide)).2.1
  · exact (C1_hit_after_set encBool decBool initState "suggestion" "db" none
      true "true" none 0 rfl rfl (by decide)).2.2

/-- Claim C3 counterexample: the claimed strict ordering
`resolveTTL(aggressive,0) > resolveTTL(adaptive,0) > resolveTTL(moderate,0)
> resolveTTL(conservative,0)` is false on the code: a fresh key's access
count 0 is below 2, so the adaptive TTL is halved to 300s, which is not
greater than moderate's 900s. -/
theorem C3_cex :
    ¬(resolveTTL CacheStrategy.aggressive 0 > resolveTTL CacheStrategy.adaptive 0 ∧
      resolveTTL CacheStrategy.adaptive 0 > resolveTTL CacheStrategy.moderate 0 ∧
      resolveTTL CacheStrategy.moderate 0 > resolveTTL CacheStrategy.conservative 0) := by
  decide

/-- Claim C3 (amended): for a freshly-seen key (access count 0) the
resolved TTLs are ordered aggressive (3600s) > moderate (900s) >
adaptive (300s, the 600s base halved for a cold key) = conservative
(300s); and with no override `set`'s TTL determination agrees with this
policy function. -/
theorem C3_ttl_ordering :
    resolveTTL CacheStrategy.aggressive 0 > resolveTTL CacheStrategy.moderate 0 ∧
    resolveTTL CacheStrategy.moderate 0 > resolveTTL CacheStrategy.adaptive 0 ∧
    resolveTTL CacheStrategy.adaptive 0 = resolveTTL CacheStrategy.conservative 0 ∧
    ∀ strat : CacheStrategy,
      determineTTL strat 0 none = (resolveTTL strat 0 : Int) := by
  refine ⟨by decide, by decide, by decide, ?_⟩
  intro strat
  cases strat <;> rfl

/-- Claim C4: the key builder is pure and deterministic, and permuting the
context mapping's entries never changes the key (the builder sorts the
items before hashing, and sorting under the total antisymmetric tuple
order is a canonical form of the permutation class). -/
theorem C4_key_deterministic_perm_invariant :
    (∀ (cache_type identifier : String) (context : Option Ctx),
      generate_cache_key cache_type identifier context =
        generate_cache_key cache_type identifier context) ∧
    ∀ (cache_type identifier : String) (ctx1 ctx2 : Ctx),
      ctx1.Perm ctx2 →
      generate_cache_key cache_type identifier (some ctx1) =
        generate_cache_key cache_type identifier (some ctx2) := by
  refine ⟨fun _ _ _ => rfl, ?_⟩
  intro ct ident ctx1 ctx2 hperm
  have hsort : List.insertionSort pairLe ctx1 = List.insertionSort pairLe ctx2 :=
    List.eq_of_perm_of_sorted
      (((List.perm_insertionSort pairLe ctx1).trans hperm).trans
        (List.perm_insertionSort pairLe ctx2).symm)
      (List.sorted_insertionSort pairLe ctx1)
      (List.sorted_insertionSort pairLe ctx2)
  have hlen := hperm.length_eq
  have hempty : ctx1.isEmpty = ctx2.isEmpty := by
    cases ctx1 <;> cases ctx2 <;> simp_all [List.isEmpty]
  simp [generate_cache_key, hsort, hempty]

/-- Witness for C4 at a concrete pair of permuted contexts. -/
theorem C4_witness :
    ([("b", "2"), ("a", "1")] : Ctx).Perm [("a", "1"), ("b", "2")] ∧
    generate_cache_key "suggestion" "field" (some [("b", "2"), ("a", "1")]) =
      generate_cache_key "suggestion" "field" (some [("a", "1"), ("b", "2")]) := by
  refine ⟨List.Perm.swap _ _ _, ?_⟩
  exact C4_key_deterministic_perm_invariant.2 "suggestion" "field" _ _
    (List.Perm.swap _ _ _)

/-- Claim C6 counterexample: an explicit TTL override of 0 seconds is not
used verbatim.  `if ttl_override:` treats 0 as falsy, so the write falls
back to the strategy TTL: under the default moderate strategy the entry is
written with TTL 900, not 0. -/
theorem C6_cex :
    (cacheSet encBool false initState "suggestion" "db" true none none
      (some 0)).1 = true ∧
    alookup (cacheSet encBool false initState "suggestion" "db" true none none
        (some 0)).2.redis
      (generate_cache_key "suggestion" "db" none) =
      some { value := "true", ttl := 900 } ∧
    (900 : Int) ≠ 0 := by
  refine ⟨rfl, by decide, by decide⟩

/-- Claim C6 (amended): for every `set` call whose explicit TTL override is
a *non-zero* integer, the TTL written to the backing store equals the
override verbatim, regardless of strategy and of the key's access count
(an override of 0 is falsy in Python and silently ignored). -/
theorem C6_override_verbatim {A : Type} (enc : A → Except Unit String)
    (s : CacheState) (cache_type identifier : String) (v : A)
    (context : Option Ctx) (strategy : Option CacheStrategy) (t : Int)
    (str : String) (ht : t ≠ 0) (henc : enc v = Except.ok str) :
    (cacheSet enc false s cache_type identifier v context strategy
      (some t)).1 = true ∧
    alookup (cacheSet enc false s cache_type identifier v context strategy
        (some t)).2.redis
      (generate_cache_key cache_type identifier context) =
      some { value := str, ttl := t } := by
  simp [cacheSet, henc, determineTTL, pyTruthyInt, ht, alookup_aset_self]

/-- Witness for C6 at a concrete non-zero override. -/
theorem C6_witness :
    (7 : Int) ≠ 0 ∧
    (cacheSet encBool false initState "c" "i" true none none (some 7)).1 = true ∧
    alookup (cacheSet encBool false initState "c" "i" true none none
        (some 7)).2.redis
      (generate_cache_key "c" "i" none) = some { value := "true", ttl := 7 } := by
  refine ⟨by decide, ?_, ?_⟩
  · exact (C6_override_verbatim encBool initState "c" "i" true none none 7
      "true" (by decide) rfl).1
  · exact (C6_override_verbatim encBool initState "c" "i" true none none 7
      "true" (by decide) rfl).2

/-- Claim C7: no backing-store failure escapes the cache's public boundary
as an exception: when the store raises during the operation, `get` returns
`None` (a miss), `set` returns `False`, and `invalidate` returns `0` — for
every input. -/
theorem C7_store_failure_contained {A : Type} (enc : A → Except Unit String)
    (dec : String → Option A) (s : CacheState)
    (cache_type identifier : String) (context : Option Ctx) (v : A)
    (strategy : Option CacheStrategy) (ttl_override : Option Int)
    (idOpt : Option String) (rt : Rat) :
    (cacheGet dec true s cache_type identifier context rt).1 = none ∧
    (cacheSet enc true s cache_type identifier v context strategy
      ttl_override).1 = false ∧
    (cacheInvalidate true s cache_type idOpt context).1 = 0 := by
  refine ⟨rfl, ?_, rfl⟩
  cases henc : enc v <;> simp [cacheSet, henc]

theorem alookup_aremove_self {β : Type} (l : List (String × β))
    (key : String) : alookup (aremove l key) key = none := by
  induction l with
  | nil => rfl
  | cons p rest ih =>
    obtain ⟨a, b⟩ := p
    by_cases h : a = key
    · simp [aremove, List.filter_cons, h, ih]
      simpa [aremove] using ih
    · simp [aremove, List.filter_cons, h, alookup, ih]
      simpa [aremove] using ih

/-- Claim C2 counterexample: the per-key access counter is *not* created on
a first `set`.  A successful `set` on a fresh key leaves the access-count
table empty: only `get` hits touch `_access_counts`. -/
theorem C2_cex :
    (cacheSet encBool false initState "suggestion" "db" true none none
      none).1 = true ∧
    (cacheSet encBool false initState "suggestion" "db" true none none
      none).2.accessCounts = [] := by
  exact ⟨rfl, rfl⟩

/-- Claim C2 (amended): the per-key access counter counts cache *hits*
only.  `set` never creates or increments it; a `get` that finds the key
(a truthy stored value) creates it at 1 or increments it by 1, leaving
other keys' counters unchanged; a `get` on an absent key leaves the table
unchanged; invalidating the key removes its counter. -/
theorem C2_access_counter_hits_only :
    (∀ (A : Type) (enc : A → Except Unit String) (fail : Bool)
       (s : CacheState) (ct ident : String) (v : A) (ctx : Option Ctx)
       (strat : Option CacheStrategy) (ov : Option Int),
       (cacheSet enc fail s ct ident v ctx strat ov).2.accessCounts =
         s.accessCounts) ∧
    (∀ (A : Type) (dec : String → Option A) (s : CacheState)
       (ct ident : String) (ctx : Option Ctx) (rt : Rat) (e : StoreEntry),
       alookup s.redis (generate_cache_key ct ident ctx) = some e →
       e.value ≠ "" →
       alookup (cacheGet dec false s ct ident ctx rt).2.accessCounts
           (generate_cache_key ct ident ctx) =
         some ((alookup s.accessCounts
           (generate_cache_key ct ident ctx)).getD 0 + 1) ∧
       ∀ k, k ≠ generate_cache_key ct ident ctx →
         alookup (cacheGet dec false s ct ident ctx rt).2.accessCounts k =
           alookup s.accessCounts k) ∧
    (∀ (A : Type) (dec : String → Option A) (s : CacheState)
       (ct ident : String) (ctx : Option Ctx) (rt : Rat),
       alookup s.redis (generate_cache_key ct ident ctx) = none →
       (cacheGet dec false s ct ident ctx rt).2.accessCounts =
         s.accessCounts) ∧
    ∀ (s : CacheState) (ct ident : String) (ctx : Option Ctx),
      ident ≠ "" →
      alookup (cacheInvalidate false s ct (some ident) ctx).2.accessCounts
        (generate_cache_key ct ident ctx) = none := by
  refine ⟨?_, ?_, ?_, ?_⟩
  · intro A enc fail s ct ident v ctx strat ov
    cases henc : enc v <;> cases fail <;> simp [cacheSet, henc]
  · intro A dec s ct ident ctx rt e hl hv
    refine ⟨?_, ?_⟩
    · cases hdec : dec e.value <;>
        simp [cacheGet, hl, hv, hdec, bumpCount, alookup_aset_self]
    · intro k hk
      cases hdec : dec e.value <;>
        simp [cacheGet, hl, hv, hdec, bumpCount, alookup_aset_ne _ _ _ _ hk]
  · intro A dec s ct ident ctx rt hl
    simp [cacheGet, hl]
  · intro s ct ident ctx hid
    simp [cacheInvalidate, pyTruthyStr, hid, alookup_aremove_self]

/-- Witness for C2's amended theorem at concrete inputs: a concrete set
leaves the (empty) table empty; a concrete hit creates the counter at 1; a
concrete absent-key get changes nothing; a concrete invalidate removes the
counter. -/
theorem C2_witness :
    ((cacheSet encBool false initState "c" "i" true none none
        none).2.accessCounts = initState.accessCounts) ∧
    (alookup (cacheGet decBool false
        { initState with redis := [(generate_cache_key "c" "i" none,
            { value := "true", ttl := 900 })] }
        "c" "i" none 0).2.accessCounts (generate_cache_key "c" "i" none) =
      some 1) ∧
    ((cacheGet decBool false initState "c" "i" none 0).2.accessCounts =
      initState.accessCounts) ∧
    alookup (cacheInvalidate false
        { initState with accessCounts := [(generate_cache_key "c" "i" none, 3)] }
        "c" (some "i") none).2.accessCounts
      (generate_cache_key "c" "i" none) = none := by
  refine ⟨?_, ?_, ?_, ?_⟩
  · exact C2_access_counter_hits_only.1 Bool encBool false initState "c" "i"
      true none none none
  · exact (C2_access_counter_hits_only.2.1 Bool decBool
      { initState with redis := [(generate_cache_key "c" "i" none,
          { value := "true", ttl := 900 })] }
      "c" "i" none 0 { value := "true", ttl := 900 }
      (by simp [initState, alookup]) (by decide)).1
  · exact C2_access_counter_hits_only.2.2.1 Bool decBool initState "c" "i"
      none 0 rfl
  · exact C2_access_counter_hits_only.2.2.2
      { initState with accessCounts := [(generate_cache_key "c" "i" none, 3)] }
      "c" "i" none (by decide)

theorem colon_split (l1 r1 : List Char) :
    ∀ (l2 r2 : List Char), ':' ∉ l1 → ':' ∉ l2 →
      l1 ++ ':' :: r1 = l2 ++ ':' :: r2 → l1 = l2 ∧ r1 = r2 := by
  induction l1 with
  | nil =>
    intro l2 r2 _ h2 heq
    cases l2 with
    | nil =>
      simp only [List.nil_append, List.cons.injEq] at heq
      exact ⟨rfl, heq.2⟩
    | cons y ys =>
      simp only [List.nil_append, List.cons_append, List.cons.injEq] at heq
      obtain ⟨hy, -⟩ := heq
      subst hy
      exact absurd (List.mem_cons_self _ _) h2
  | cons x xs ih =>
    intro l2 r2 h1 h2 heq
    cases l2 with
    | nil =>
      simp only [List.cons_append, List.nil_append, List.cons.injEq] at heq
      obtain ⟨hx, -⟩ := heq
      subst hx
      exact absurd (List.mem_cons_self _ _) h1
    | cons y ys =>
      simp only [List.cons_append, List.cons.injEq] at heq
      obtain ⟨hxy, hrest⟩ := heq
      subst hxy
      have h1' : ':' ∉ xs := fun m => h1 (List.mem_cons_of_mem _ m)
      have h2' : ':' ∉ ys := fun m => h2 (List.mem_cons_of_mem _ m)
      obtain ⟨e1, e2⟩ := ih ys r2 h1' h2' hrest
      exact ⟨by rw [e1], e2⟩

theorem colonLit_data : (":" : String).data = [':'] := rfl

theorem genKey_none_data (c i : String) :
    (generate_cache_key c i none).data =
      "ai_cache".data ++ ':' :: (c.data ++ ':' :: i.data) := by
  simp [generate_cache_key, joinColon, aiCacheNs, String.data_append,
    colonLit_data]

/-- A string containing no `':'` separator character. -/
def colonFree (s : String) : Prop := ':' ∉ s.data

instance (s : String) : Decidable (colonFree s) := by
  unfold colonFree; exact inferInstance

/-- Claim C5 counterexample: two triples differing in both category and
identifier produce the *same* key with certainty — no hashing involved —
because the parts are joined with an unescaped `":"`:
`("c", "i:x", ∅)` and `("c:i", "x", ∅)` both yield `"ai_cache:c:i:x"`. -/
theorem C5_cex :
    generate_cache_key "c" "i:x" none = generate_cache_key "c:i" "x" none ∧
    ¬("c" = "c:i" ∧ "i:x" = "x") := by
  exact ⟨rfl, by decide⟩

/-- Claim C5 (amended): key collisions between differing triples are not
merely hash-probability events: separator injection collides with
certainty (see the counterexample).  What does hold is that for calls
without context whose categories contain no `':'`, differing
(category, identifier) pairs always produce differing keys. -/
theorem C5_key_injective_colonfree (c1 i1 c2 i2 : String)
    (h1 : colonFree c1) (h2 : colonFree c2) (hne : (c1, i1) ≠ (c2, i2)) :
    generate_cache_key c1 i1 none ≠ generate_cache_key c2 i2 none := by
  intro heq
  have hd := congrArg String.data heq
  rw [genKey_none_data, genKey_none_data] at hd
  have hd2 := List.append_cancel_left hd
  simp only [List.cons.injEq, true_and] at hd2
  obtain ⟨ec, ei⟩ := colon_split c1.data i1.data c2.data i2.data h1 h2 hd2
  exact hne (by rw [String.ext ec, String.ext ei])

/-- Witness for C5's amended theorem at concrete colon-free categories. -/
theorem C5_witness :
    colonFree "sugg" ∧ ¬(("sugg", "a") = ("sugg", "b")) ∧
    generate_cache_key "sugg" "a" none ≠ generate_cache_key "sugg" "b" none := by
  refine ⟨by decide, by decide, ?_⟩
  exact C5_key_injective_colonfree "sugg" "a" "sugg" "b" (by decide)
    (by decide) (by decide)

/-- Claim C8: with the store holding exactly keys A (access count 1) and B
(access count 15, 600s of TTL remaining), `optimize()` evicts A (store
entry and counter both gone), extends B's TTL to 3600s ≥ 3600s, and
reports `keysEvicted = 1` and `keysAnalyzed = 2`. -/
theorem C8_optimize_scenario (A B va vb : String) (ea : Int)
    (m : CacheMetrics) (w : List String) (ds : CacheStrategy)
    (hAB : A ≠ B) :
    (cacheOptimize false
        { redis := [(A, { value := va, ttl := ea }),
                    (B, { value := vb, ttl := 600 })]
          metrics := m, warmKeys := w
          accessCounts := [(A, 1), (B, 15)]
          defaultStrategy := ds }).1.keys_evicted = 1 ∧
    (cacheOptimize false
        { redis := [(A, { value := va, ttl := ea }),
                    (B, { value := vb, ttl := 600 })]
          metrics := m, warmKeys := w
          accessCounts := [(A, 1), (B, 15)]
          defaultStrategy := ds }).1.keys_analyzed = 2 ∧
    alookup (cacheOptimize false
        { redis := [(A, { value := va, ttl := ea }),
                    (B, { value := vb, ttl := 600 })]
          metrics := m, warmKeys := w
          accessCounts := [(A, 1), (B, 15)]
          defaultStrategy := ds }).2.redis A = none ∧
    alookup (cacheOptimize false
        { redis := [(A, { value := va, ttl := ea }),
                    (B, { value := vb, ttl := 600 })]
          metrics := m, warmKeys := w
          accessCounts := [(A, 1), (B, 15)]
          defaultStrategy := ds }).2.accessCounts A = none ∧
    alookup (cacheOptimize false
        { redis := [(A, { value := va, ttl := ea }),
                    (B, { value := vb, ttl := 600 })]
          metrics := m, warmKeys := w
          accessCounts := [(A, 1), (B, 15)]
          defaultStrategy := ds }).2.redis B =
      some { value := vb, ttl := 3600 } := by
  have hBA : B ≠ A := Ne.symm hAB
  refine ⟨?_, ?_, ?_, ?_, ?_⟩ <;>
    simp [cacheOptimize, rDelete, rTtl, rExpire, aremove, alookup, aset,
      extendLoop, List.filter_cons, hAB, hBA]

/-- Witness for C8 at concrete keys. -/
theorem C8_witness :
    ("ka" : String) ≠ "kb" ∧
    (cacheOptimize false
        { redis := [("ka", { value := "x", ttl := 50 }),
                    ("kb", { value := "y", ttl := 600 })]
          metrics := {}, warmKeys := []
          accessCounts := [("ka", 1), ("kb", 15)]
          defaultStrategy := CacheStrategy.moderate }).1.keys_evicted = 1 ∧
    (cacheOptimize false
        { redis := [("ka", { value := "x", ttl := 50 }),
                    ("kb", { value := "y", ttl := 600 })]
          metrics := {}, warmKeys := []
          accessCounts := [("ka", 1), ("kb", 15)]
          defaultStrategy := CacheStrategy.moderate }).2.redis =
      [("kb", { value := "y", ttl := 3600 })] := by
  refine ⟨by decide, ?_, by decide⟩
  exact (C8_optimize_scenario "ka" "kb" "x" "y" 50 {} []
    CacheStrategy.moderate (by decide)).1

/-- Claim C9: `warmCache` applies `set` to each entry independently — a
malformed entry (whose field access raises before `set` is reached) is
skipped without affecting the processing of the other entries or the
state, and when every entry is well formed and serializable (and the store
healthy) the returned success count is the full batch size; together these
give "success count = total entries minus the failing ones". -/
theorem C9_warm_partial_tolerance :
    (∀ (A : Type) (enc : A → Except Unit String) (fail : Bool)
       (s : CacheState) (strategy : CacheStrategy)
       (pre post : List (WarmEntry A)) (bad : WarmEntry A),
       bad.cache_type = none →
       warmCache enc fail s (pre ++ bad :: post) strategy =
         warmCache enc fail s (pre ++ post) strategy) ∧
    ∀ (A : Type) (enc : A → Except Unit String) (s : CacheState)
      (strategy : CacheStrategy) (entries : List (WarmEntry A)),
      (∀ e ∈ entries, ∃ ct ident v str, e.cache_type = some ct ∧
        e.identifier = some ident ∧ e.value = some v ∧
        enc v = Except.ok str) →
      (warmCache enc false s entries strategy).1 = entries.length := by
  constructor
  · intro A enc fail s strategy pre post bad hbad
    induction pre generalizing s with
    | nil =>
      obtain ⟨bct, bid, bv, bctx⟩ := bad
      cases hbad
      simp [warmCache]
    | cons p pre' ih =>
      obtain ⟨pct, pid, pv, pctx⟩ := p
      cases pct <;> cases pid <;> cases pv <;>
        simp [warmCache, List.cons_append, ih]
  · intro A enc s strategy entries h
    induction entries generalizing s with
    | nil => rfl
    | cons e rest ih =>
      obtain ⟨ct, ident, v, str, h1, h2, h3, h4⟩ :=
        h e (List.mem_cons_self e rest)
      obtain ⟨ect, eid, ev, ectx⟩ := e
      cases h1; cases h2; cases h3
      have hrest : ∀ e ∈ rest, ∃ ct ident v str, e.cache_type = some ct ∧
          e.identifier = some ident ∧ e.value = some v ∧
          enc v = Except.ok str :=
        fun e he => h e (List.mem_cons_of_mem _ he)
      simp [warmCache, cacheSet, h4, ih _ hrest, Nat.add_comm]

/-- Witness for C9: a batch of a malformed entry followed by a good one —
the malformed entry is skipped and the good one still succeeds, for a
success count of 1 = 2 - 1. -/
theorem C9_witness :
    (({ cache_type := none, identifier := some "i", value := some true,
        context := none } : WarmEntry Bool).cache_type = none) ∧
    warmCache encBool false initState
        [{ cache_type := none, identifier := some "i", value := some true,
           context := none },
         { cache_type := some "c", identifier := some "g",
           value := some true, context := none }]
        CacheStrategy.aggressive =
      warmCache encBool false initState
        [{ cache_type := some "c", identifier := some "g",
           value := some true, context := none }]
        CacheStrategy.aggressive ∧
    (warmCache encBool false initState
        [{ cache_type := some "c", identifier := some "g",
           value := some true, context := none }]
        CacheStrategy.aggressive).1 = 1 := by
  refine ⟨rfl, ?_, ?_⟩
  · exact C9_warm_partial_tolerance.1 Bool encBool false initState
      CacheStrategy.aggressive []
      [{ cache_type := some "c", identifier := some "g",
         value := some true, context := none }]
      { cache_type := none, identifier := some "i", value := some true,
        context := none } rfl
  · refine (C9_warm_partial_tolerance.2 Bool encBool initState
      CacheStrategy.aggressive
      [{ cache_type := some "c", identifier := some "g",
         value := some true, context := none }] ?_).trans rfl
    intro e he
    rw [List.mem_singleton] at he
    subst he
    exact ⟨"c", "g", true, "true", rfl, rfl, rfl, rfl⟩

/-- Claim C10: only `invalidate` changes the evictions metric.  Every
`invalidate` leaves the evictions counter increased by exactly the number
of keys it removed; `optimize` (even when it evicts), `set`, `warmCache`
and `clearAll` leave the metrics object untouched, and `get` never touches
the evictions counter. -/
theorem C10_evictions_frame :
    (∀ (fail : Bool) (s : CacheState) (cache_type : String)
       (idOpt : Option String) (context : Option Ctx),
       (cacheInvalidate fail s cache_type idOpt context).2.metrics.evictions =
         s.metrics.evictions +
           (cacheInvalidate fail s cache_type idOpt context).1) ∧
    (∀ (fail : Bool) (s : CacheState),
       (cacheOptimize fail s).2.metrics = s.metrics) ∧
    (∀ (A : Type) (enc : A → Except Unit String) (fail : Bool)
       (s : CacheState) (ct ident : String) (v : A) (ctx : Option Ctx)
       (strat : Option CacheStrategy) (ov : Option Int),
       (cacheSet enc fail s ct ident v ctx strat ov).2.metrics = s.metrics) ∧
    (∀ (A : Type) (enc : A → Except Unit String) (fail : Bool)
       (s : CacheState) (entries : List (WarmEntry A))
       (strat : CacheStrategy),
       (warmCache enc fail s entries strat).2.metrics = s.metrics) ∧
    (∀ (fail : Bool) (s : CacheState),
       (clearAll fail s).2.metrics = s.metrics) ∧
    ∀ (A : Type) (dec : String → Option A) (fail : Bool) (s : CacheState)
      (ct ident : String) (ctx : Option Ctx) (rt : Rat),
      (cacheGet dec fail s ct ident ctx rt).2.metrics.evictions =
        s.metrics.evictions := by
  have hset : ∀ (A : Type) (enc : A → Except Unit String) (fail : Bool)
      (s : CacheState) (ct ident : String) (v : A) (ctx : Option Ctx)
      (strat : Option CacheStrategy) (ov : Option Int),
      (cacheSet enc fail s ct ident v ctx strat ov).2.metrics = s.metrics := by
    intro A enc fail s ct ident v ctx strat ov
    cases henc : enc v <;> cases fail <;> simp [cacheSet, henc]
  refine ⟨?_, ?_, hset, ?_, ?_, ?_⟩
  · intro fail s cache_type idOpt context
    cases fail
    · by_cases hid : pyTruthyStr idOpt = true
      · simp [cacheInvalidate, hid]
      · by_cases hk : (rScan s.redis
            (aiCacheNs ++ ":" ++ cache_type ++ ":")).isEmpty <;>
          simp [cacheInvalidate, hid, hk]
    · simp [cacheInvalidate]
  · intro fail s
    by_cases hr : ((s.accessCounts.filter (fun p => p.2 < 2)).map (·.1)).isEmpty <;>
      by_cases hf : ((s.accessCounts.filter (fun p => p.2 > 10)).map (·.1)).isEmpty <;>
      cases fail <;>
      simp [cacheOptimize, hr, hf]
  · intro A enc fail s entries strat
    induction entries generalizing s with
    | nil => rfl
    | cons e rest ih =>
      obtain ⟨ect, eid, ev, ectx⟩ := e
      cases ect <;> cases eid <;> cases ev <;>
        simp [warmCache, ih, hset]
  · intro fail s
    cases fail <;> simp [clearAll]
  · intro A dec fail s ct ident ctx rt
    cases fail
    · rcases hl : alookup s.redis (generate_cache_key ct ident ctx) with - | e
      · simp [cacheGet, hl]
      · by_cases hv : e.value = ""
        · simp [cacheGet, hl, hv]
        · cases hdec : dec e.value <;> simp [cacheGet, hl, hv, hdec]
    · simp [cacheGet]
